import Mathlib

/-!
Shallow embedding of the physics core of `src/TreeBodyProblem.py` (an
interactive gravitational n-body toy): the `Body` entity with its
integration, boundary-rebound and trace logic, the pairwise force
function, the even/odd tuple summation helper, and the click handler of
`main` that appends new bodies.  All floating-point arithmetic of the
source is modelled as exact real arithmetic; Python tuples of floats
become `List ℝ` or `ℝ × ℝ`; the fallible palette lookup of the source
(Python indexing, which raises `IndexError` out of range) becomes an
`Option`-valued lookup.
-/

/-- The point-mass entity, mirroring the attributes set by `Body.__init__`
(`src/TreeBodyProblem.py` lines 17-30).  `radius` is the derived rendering
radius `int(math.sqrt(mass) * 2)`, kept as an integer field; `color` is the
RGB triple the source also uses as the identity token; `trace` is the list
of past positions. -/
structure Body where
  x : ℝ
  y : ℝ
  mass : ℝ
  radius : ℤ
  vx : ℝ
  vy : ℝ
  color : ℕ × ℕ × ℕ
  trace : List (ℝ × ℝ)
  rebound_factor : ℝ
  screen_width : ℝ
  screen_height : ℝ

/-- The equality test of `Body.__eq__` (lines 32-38): two bodies compare
equal exactly when their color triples match. -/
def Body.eqColor (a b : Body) : Bool := a.color == b.color

/-- The y-axis block of `Body.check_boundaries` (lines 74-79): clamp `y`
into `[0, screen_height]` and scale `vy` by minus the rebound factor on a
hit; the two conditions are an if / elif pair. -/
noncomputable def Body.boundY (b : Body) : Body :=
  if b.y < 0 then { b with y := 0, vy := b.vy * -b.rebound_factor }
  else if b.y > b.screen_height then
    { b with y := b.screen_height, vy := b.vy * -b.rebound_factor }
  else b

/-- The x-axis block of `Body.check_boundaries` (lines 80-85), running on
the state the y block left behind. -/
noncomputable def Body.boundX (b : Body) : Body :=
  if b.x < 0 then { b with x := 0, vx := b.vx * -b.rebound_factor }
  else if b.x > b.screen_width then
    { b with x := b.screen_width, vx := b.vx * -b.rebound_factor }
  else b

/-- `Body.check_boundaries` (lines 71-85): the y-axis if / elif block
followed by the x-axis if / elif block. -/
noncomputable def Body.check_boundaries (b : Body) : Body := b.boundY.boundX

/-- `Body.update_trace` (lines 64-69): append the current position to the
trace, then pop the oldest entry when the length of the appended list is
exactly 100. -/
def Body.update_trace (b : Body) : Body :=
  if (b.trace ++ [(b.x, b.y)]).length = 100 then
    { b with trace := (b.trace ++ [(b.x, b.y)]).tail }
  else { b with trace := b.trace ++ [(b.x, b.y)] }

/-- `Body.update` (lines 51-62): `ax = force_x / mass`, `vx += ax`,
`x += vx` (the freshly updated velocity, substituted inline below), the
same on the y axis, then `check_boundaries` and `update_trace`. -/
noncomputable def Body.update (b : Body) (force_x force_y : ℝ) : Body :=
  Body.update_trace (Body.check_boundaries
    { b with
      vx := b.vx + force_x / b.mass
      vy := b.vy + force_y / b.mass
      x := b.x + (b.vx + force_x / b.mass)
      y := b.y + (b.vy + force_y / b.mass) })

/-- The `distance` value of `calculate_gravitational_force` (line 99):
the Euclidean distance of the two positions, floored at 1. -/
noncomputable def distance (p1 p2 : Body) : ℝ :=
  max 1 (Real.sqrt ((p2.x - p1.x) ^ 2 + (p2.y - p1.y) ^ 2))

/-- The two-argument arctangent `math.atan2(y, x)`: the argument of the
complex number `x + y*i`, in `(-pi, pi]`. -/
noncomputable def atan2 (y x : ℝ) : ℝ := Complex.arg ⟨x, y⟩

/-- `calculate_gravitational_force` (lines 94-106): zero force below the
distance cutoff of 40, otherwise magnitude `g*m1*m2 / distance^2` resolved
along `atan2(dy, dx)`; the local variables `force` and `angle` of the
source are substituted inline. -/
noncomputable def calculate_gravitational_force (p1 p2 : Body) (g : ℝ) : ℝ × ℝ :=
  if distance p1 p2 < 40 then (0, 0)
  else
    (g * p1.mass * p2.mass / distance p1 p2 ^ 2 *
       Real.cos (atan2 (p2.y - p1.y) (p2.x - p1.x)),
     g * p1.mass * p2.mass / distance p1 p2 ^ 2 *
       Real.sin (atan2 (p2.y - p1.y) (p2.x - p1.x)))

/-- `add_tuples` (lines 108-118): walk the indices of the flat tuple in
order, adding even-indexed entries to the first accumulator and
odd-indexed entries to the second. -/
noncomputable def add_tuples (t : List ℝ) : ℝ × ℝ :=
  t.enum.foldl
    (fun acc p => if p.1 % 2 = 0 then (acc.1 + p.2, acc.2) else (acc.1, acc.2 + p.2))
    (0, 0)

/-- The accumulated flat force tuple of `Body.calculate_grav_force`
(lines 44-47): starting from the Python tuple `(0, 0)`, every body that is
not color-equal to `self` appends its pairwise force pair by tuple
concatenation (`force += calculate_gravitational_force(self, body, g)`). -/
noncomputable def forceList (b : Body) (bodies : List Body) (g : ℝ) : List ℝ :=
  bodies.foldl
    (fun acc bd =>
      if bd.eqColor b then acc
      else acc ++ [(calculate_gravitational_force b bd g).1,
                   (calculate_gravitational_force b bd g).2])
    [0, 0]

/-- `Body.calculate_grav_force` (lines 40-49): reduce the concatenated
tuple with `add_tuples` and feed the two components to `update`. -/
noncomputable def Body.calculate_grav_force (b : Body) (bodies : List Body) (g : ℝ) : Body :=
  b.update (add_tuples (forceList b bodies g)).1 (add_tuples (forceList b bodies g)).2

/-- Specification-side definition, written from the words of the spec
(section 4.2): `net_force` sums `pairwise_force(body, other, g)`
component-wise over every body of the list that is not equal to `body`
under the color-equality predicate of section 4.1.  It is compared with
the concatenate-then-`add_tuples` accumulation of the code. -/
noncomputable def net_force (b : Body) (bodies : List Body) (g : ℝ) : ℝ × ℝ :=
  bodies.foldl
    (fun acc bd =>
      if bd.eqColor b then acc
      else (acc.1 + (calculate_gravitational_force b bd g).1,
            acc.2 + (calculate_gravitational_force b bd g).2))
    (0, 0)

/-- Specification-side integration core, written from the words of the
spec (section 4.1): a fixed-timestep semi-implicit Euler step with unit
time step — velocity is updated first by acceleration times the unit
step, and position is advanced by the freshly updated velocity times the
unit step. -/
noncomputable def integrateSpec (b : Body) (fx fy : ℝ) : Body :=
  { b with
    vx := b.vx + fx / b.mass * 1
    vy := b.vy + fy / b.mass * 1
    x := b.x + (b.vx + fx / b.mass * 1) * 1
    y := b.y + (b.vy + fy / b.mass * 1) * 1 }

/-- The color palette `COLORS` (lines 7-15) that the click handler indexes
by the current body count. -/
def COLORS : List (ℕ × ℕ × ℕ) :=
  [(255, 0, 0), (0, 255, 0), (0, 0, 255), (255, 255, 0),
   (255, 0, 255), (0, 255, 255), (128, 128, 128)]

/-- Python list indexing `l[i]`: a nonnegative index reads from the front,
a negative index `i` with `-i ≤ len(l)` reads `l[len(l) + i]`, and
anything else raises `IndexError`, modelled as `none`. -/
def pyIndex {α : Type} (l : List α) (i : ℤ) : Option α :=
  if 0 ≤ i then l.get? i.toNat
  else if (-i).toNat ≤ l.length then l.get? (l.length - (-i).toNat)
  else none

/-- The body the click branch of `main` constructs (lines 194-205): placed
at the mouse position, with the configured mass and rebound factor, the
hard-coded velocity `(0.1, 0.1)`, an empty trace, and the given palette
color; `radius` is derived as in `__init__`. -/
noncomputable def clickBody (mouse : ℝ × ℝ) (mass rf width height : ℝ)
    (color : ℕ × ℕ × ℕ) : Body :=
  { x := mouse.1, y := mouse.2, mass := mass, radius := ⌊Real.sqrt mass * 2⌋,
    vx := 0.1, vy := 0.1, color := color, trace := [],
    rebound_factor := rf, screen_width := width, screen_height := height }

/-- The `MOUSEBUTTONDOWN` branch of `main` (lines 191-207): when the body
count is below `max_bodies`, look up `COLORS[len(bodies) - 3]` and append
the new body (`none` models the uncaught `IndexError` of an out-of-range
lookup); otherwise leave the list unchanged and emit the warning, modelled
as the `true` flag of the result pair. -/
noncomputable def handle_click (bodies : List Body) (max_bodies : ℕ) (mouse : ℝ × ℝ)
    (mass rf width height : ℝ) : Option (List Body × Bool) :=
  if bodies.length < max_bodies then
    (pyIndex COLORS ((bodies.length : ℤ) - 3)).map
      (fun c => (bodies ++ [clickBody mouse mass rf width height c], false))
  else some (bodies, true)

/-- One trace-recording step as it happens at the end of every `update`
call: the body stands at some freshly computed and clamped position, and
`update_trace` records it.  The position is passed explicitly so that a
run can be driven by an arbitrary list of recorded positions. -/
def recordStep (b : Body) (p : ℝ × ℝ) : Body :=
  Body.update_trace { b with x := p.1, y := p.2 }

/-- Drive `update_trace` once per recorded position, in order: one call
per `update`, as the main loop performs them frame by frame. -/
def recordRun (b : Body) (ps : List (ℝ × ℝ)) : Body := ps.foldl recordStep b

/-- The even/odd contribution of one indexed entry of the flat tuple, used
to restate `add_tuples` as a sum. -/
def tupContrib (p : ℕ × ℝ) : ℝ × ℝ := if p.1 % 2 = 0 then (p.2, 0) else (0, p.2)

/-- A concrete body used to instantiate witnesses: at the origin, mass 10,
at rest, red, fresh trace, rebound factor one half, an 800 by 600 screen. -/
noncomputable def body0 : Body :=
  { x := 0, y := 0, mass := 10, radius := 6, vx := 0, vy := 0,
    color := (255, 0, 0), trace := [], rebound_factor := 0.5,
    screen_width := 800, screen_height := 600 }

/-- A concrete body below the floor moving downward, for the rebound
witness: `y = -3 < 0`, `vy = -5`, rebound factor one half, and `x = -2`
also past the left edge so the same call reflects both axes. -/
noncomputable def body6 : Body :=
  { x := -2, y := -3, mass := 10, radius := 6, vx := 4, vy := -5,
    color := (0, 255, 0), trace := [], rebound_factor := 0.5,
    screen_width := 800, screen_height := 600 }

/-! Field-preservation and case lemmas for the boundary and trace steps. -/

lemma boundY_x (b : Body) : b.boundY.x = b.x := by
  unfold Body.boundY; split_ifs <;> rfl

lemma boundY_vx (b : Body) : b.boundY.vx = b.vx := by
  unfold Body.boundY; split_ifs <;> rfl

lemma boundY_screen_width (b : Body) : b.boundY.screen_width = b.screen_width := by
  unfold Body.boundY; split_ifs <;> rfl

lemma boundY_screen_height (b : Body) : b.boundY.screen_height = b.screen_height := by
  unfold Body.boundY; split_ifs <;> rfl

lemma boundY_rebound (b : Body) : b.boundY.rebound_factor = b.rebound_factor := by
  unfold Body.boundY; split_ifs <;> rfl

lemma boundX_y (b : Body) : b.boundX.y = b.y := by
  unfold Body.boundX; split_ifs <;> rfl

lemma boundX_vy (b : Body) : b.boundX.vy = b.vy := by
  unfold Body.boundX; split_ifs <;> rfl

lemma boundX_screen_width (b : Body) : b.boundX.screen_width = b.screen_width := by
  unfold Body.boundX; split_ifs <;> rfl

lemma boundX_screen_height (b : Body) : b.boundX.screen_height = b.screen_height := by
  unfold Body.boundX; split_ifs <;> rfl

lemma boundY_of_neg {b : Body} (h : b.y < 0) :
    b.boundY = { b with y := 0, vy := b.vy * -b.rebound_factor } := by
  unfold Body.boundY; rw [if_pos h]

lemma boundY_of_hi {b : Body} (h0 : ¬ b.y < 0) (h : b.y > b.screen_height) :
    b.boundY = { b with y := b.screen_height, vy := b.vy * -b.rebound_factor } := by
  unfold Body.boundY; rw [if_neg h0, if_pos h]

lemma boundX_of_neg {b : Body} (h : b.x < 0) :
    b.boundX = { b with x := 0, vx := b.vx * -b.rebound_factor } := by
  unfold Body.boundX; rw [if_pos h]

lemma boundX_of_hi {b : Body} (h0 : ¬ b.x < 0) (h : b.x > b.screen_width) :
    b.boundX = { b with x := b.screen_width, vx := b.vx * -b.rebound_factor } := by
  unfold Body.boundX; rw [if_neg h0, if_pos h]

lemma boundY_y_mem (b : Body) (hh : 0 ≤ b.screen_height) :
    0 ≤ b.boundY.y ∧ b.boundY.y ≤ b.screen_height := by
  unfold Body.boundY
  split_ifs with h1 h2
  · exact ⟨le_rfl, hh⟩
  · exact ⟨hh, le_rfl⟩
  · exact ⟨le_of_not_lt h1, le_of_not_lt h2⟩

lemma boundX_x_mem (b : Body) (hw : 0 ≤ b.screen_width) :
    0 ≤ b.boundX.x ∧ b.boundX.x ≤ b.screen_width := by
  unfold Body.boundX
  split_ifs with h1 h2
  · exact ⟨le_rfl, hw⟩
  · exact ⟨hw, le_rfl⟩
  · exact ⟨le_of_not_lt h1, le_of_not_lt h2⟩

lemma check_boundaries_mem (b : Body) (hw : 0 ≤ b.screen_width)
    (hh : 0 ≤ b.screen_height) :
    (0 ≤ b.check_boundaries.x ∧ b.check_boundaries.x ≤ b.screen_width) ∧
    (0 ≤ b.check_boundaries.y ∧ b.check_boundaries.y ≤ b.screen_height) := by
  unfold Body.check_boundaries
  constructor
  · have := boundX_x_mem b.boundY (by rw [boundY_screen_width]; exact hw)
    rwa [boundY_screen_width] at this
  · rw [boundX_y]
    exact boundY_y_mem b hh

lemma update_trace_x (b : Body) : b.update_trace.x = b.x := by
  unfold Body.update_trace; split_ifs <;> rfl

lemma update_trace_y (b : Body) : b.update_trace.y = b.y := by
  unfold Body.update_trace; split_ifs <;> rfl

lemma check_boundaries_screen_width (b : Body) :
    b.check_boundaries.screen_width = b.screen_width := by
  unfold Body.check_boundaries
  rw [boundX_screen_width, boundY_screen_width]

lemma check_boundaries_screen_height (b : Body) :
    b.check_boundaries.screen_height = b.screen_height := by
  unfold Body.check_boundaries
  rw [boundX_screen_height, boundY_screen_height]

/-! Trace dynamics: the sliding-window behaviour of `update_trace`. -/

lemma update_trace_trace (b : Body) (h : b.trace.length ≤ 99) :
    b.update_trace.trace =
      (b.trace ++ [(b.x, b.y)]).drop (b.trace.length + 1 - 99) := by
  unfold Body.update_trace
  split_ifs with hl
  · have h99 : b.trace.length = 99 := by
      have := hl
      simp only [List.length_append, List.length_singleton] at this
      omega
    have : b.trace.length + 1 - 99 = 1 := by omega
    rw [this, List.drop_one]
  · have : b.trace.length + 1 - 99 = 0 := by
      simp only [List.length_append, List.length_singleton] at hl
      omega
    rw [this, List.drop_zero]

lemma recordStep_trace (b : Body) (p : ℝ × ℝ) (h : b.trace.length ≤ 99) :
    (recordStep b p).trace = (b.trace ++ [p]).drop (b.trace.length + 1 - 99) := by
  unfold recordStep
  rw [update_trace_trace _ (by simpa using h)]

lemma recordRun_trace (ps : List (ℝ × ℝ)) :
    ∀ b : Body, b.trace.length ≤ 99 →
      (recordRun b ps).trace =
        (b.trace ++ ps).drop (b.trace.length + ps.length - 99) := by
  induction ps with
  | nil =>
    intro b h
    simp only [recordRun, List.foldl_nil, List.append_nil, List.length_nil]
    have h0 : b.trace.length + 0 - 99 = 0 := by omega
    rw [h0, List.drop_zero]
  | cons p rest ih =>
    intro b h
    have hstep := recordStep_trace b p h
    have hlen : (recordStep b p).trace.length = b.trace.length + 1 - (b.trace.length + 1 - 99) := by
      rw [hstep, List.length_drop]
      simp
    have hle : (recordStep b p).trace.length ≤ 99 := by omega
    have hrun : recordRun b (p :: rest) = recordRun (recordStep b p) rest := rfl
    rw [hrun, ih (recordStep b p) hle, hlen, hstep]
    have hd0 : b.trace.length + 1 - 99 ≤ (b.trace ++ [p]).length := by
      simp; omega
    rw [← List.drop_append_of_le_length hd0, List.drop_drop]
    have harr : (b.trace ++ [p]) ++ rest = b.trace ++ p :: rest := by
      rw [List.append_assoc, List.singleton_append]
    rw [harr]
    congr 1
    simp only [List.length_cons]
    omega

/-! Summation machinery relating `add_tuples` on concatenated pair lists
to the component-wise sum of the pairs. -/

lemma foldl_add_sum {α : Type} (f : α → ℝ × ℝ) :
    ∀ (l : List α) (init : ℝ × ℝ),
      l.foldl (fun acc x => acc + f x) init = init + (l.map f).sum := by
  intro l
  induction l with
  | nil => intro init; simp
  | cons a t ih =>
    intro init
    simp only [List.foldl_cons, List.map_cons, List.sum_cons]
    rw [ih, add_assoc]

lemma add_tuples_eq_sum (t : List ℝ) :
    add_tuples t = (t.enum.map tupContrib).sum := by
  unfold add_tuples
  have hstep :
      (fun (acc : ℝ × ℝ) (p : ℕ × ℝ) =>
          if p.1 % 2 = 0 then (acc.1 + p.2, acc.2) else (acc.1, acc.2 + p.2)) =
        fun acc p => acc + tupContrib p := by
    funext acc p
    unfold tupContrib
    split_ifs <;> simp [Prod.ext_iff]
  rw [hstep, foldl_add_sum]
  simp

lemma enumFromAppend {α : Type} :
    ∀ (l1 l2 : List α) (n : ℕ),
      List.enumFrom n (l1 ++ l2) =
        List.enumFrom n l1 ++ List.enumFrom (n + l1.length) l2 := by
  intro l1
  induction l1 with
  | nil => intro l2 n; simp
  | cons a t ih =>
    intro l2 n
    simp only [List.cons_append, List.enumFrom_cons, ih, List.length_cons]
    have : n + (t.length + 1) = n + 1 + t.length := by omega
    rw [this]

lemma add_tuples_append_pair (pre : List ℝ) (a c : ℝ) (h : pre.length % 2 = 0) :
    add_tuples (pre ++ [a, c]) = add_tuples pre + (a, c) := by
  rw [add_tuples_eq_sum, add_tuples_eq_sum]
  have henum : (pre ++ [a, c]).enum =
      pre.enum ++ List.enumFrom pre.length [a, c] := by
    have := enumFromAppend pre [a, c] 0
    simpa [List.enum] using this
  rw [henum, List.map_append, List.sum_append]
  congr 1
  have h1 : tupContrib (pre.length, a) = (a, 0) := by
    unfold tupContrib
    rw [if_pos h]
  have h2 : tupContrib (pre.length + 1, c) = (0, c) := by
    unfold tupContrib
    rw [if_neg (by omega)]
  simp [List.enumFrom, h1, h2, Prod.ext_iff]

lemma forceList_sum (b : Body) (g : ℝ) :
    ∀ (bodies : List Body) (pre : List ℝ), pre.length % 2 = 0 →
      add_tuples
          (bodies.foldl
            (fun acc bd =>
              if bd.eqColor b then acc
              else acc ++ [(calculate_gravitational_force b bd g).1,
                           (calculate_gravitational_force b bd g).2])
            pre) =
        add_tuples pre +
          (bodies.map (fun bd =>
            if bd.eqColor b then (0 : ℝ × ℝ)
            else calculate_gravitational_force b bd g)).sum := by
  intro bodies
  induction bodies with
  | nil => intro pre h; simp
  | cons bd rest ih =>
    intro pre h
    simp only [List.foldl_cons, List.map_cons, List.sum_cons]
    by_cases hc : bd.eqColor b
    · rw [if_pos hc, if_pos hc, ih pre h, zero_add]
    · rw [if_neg hc, if_neg hc, ih _ (by simp; omega),
        add_tuples_append_pair pre _ _ h, add_assoc]

lemma net_force_sum (b : Body) (bodies : List Body) (g : ℝ) :
    net_force b bodies g =
      (bodies.map (fun bd =>
        if bd.eqColor b then (0 : ℝ × ℝ)
        else calculate_gravitational_force b bd g)).sum := by
  unfold net_force
  have hstep :
      (fun (acc : ℝ × ℝ) (bd : Body) =>
          if bd.eqColor b then acc
          else (acc.1 + (calculate_gravitational_force b bd g).1,
                acc.2 + (calculate_gravitational_force b bd g).2)) =
        fun acc bd => acc +
          (if bd.eqColor b then (0 : ℝ × ℝ)
           else calculate_gravitational_force b bd g) := by
    funext acc bd
    split_ifs <;> simp [Prod.ext_iff]
  rw [hstep, foldl_add_sum]
  simp

lemma add_tuples_pair_zero : add_tuples [0, 0] = (0 : ℝ × ℝ) := by
  rw [add_tuples_eq_sum]
  simp [List.enum, List.enumFrom, tupContrib, Prod.ext_iff]

/-! Trigonometric facts about `atan2` and symmetry of `distance`. -/

lemma cos_atan2 (y x : ℝ) (h : x ^ 2 + y ^ 2 ≠ 0) :
    Real.cos (atan2 y x) = x / Real.sqrt (x ^ 2 + y ^ 2) := by
  have hz : (⟨x, y⟩ : ℂ) ≠ 0 := by
    intro h0
    apply h
    have hx : x = 0 := congrArg Complex.re h0
    have hy : y = 0 := congrArg Complex.im h0
    rw [hx, hy]; ring
  unfold atan2
  rw [Complex.cos_arg hz, Complex.abs_apply, Complex.normSq_mk]
  congr 2
  ring

lemma sin_atan2 (y x : ℝ) :
    Real.sin (atan2 y x) = y / Real.sqrt (x ^ 2 + y ^ 2) := by
  unfold atan2
  rw [Complex.sin_arg, Complex.abs_apply, Complex.normSq_mk]
  congr 2
  ring

lemma distance_comm (p q : Body) : distance p q = distance q p := by
  unfold distance
  have h : (q.x - p.x) ^ 2 + (q.y - p.y) ^ 2 =
      (p.x - q.x) ^ 2 + (p.y - q.y) ^ 2 := by ring
  rw [h]

lemma distance_ge_one (p q : Body) : 1 ≤ distance p q := le_max_left 1 _

lemma sq_sum_pos_of_cutoff {p q : Body} (h : ¬ distance p q < 40) :
    0 < (q.x - p.x) ^ 2 + (q.y - p.y) ^ 2 := by
  have h40 : (40 : ℝ) ≤ max 1 (Real.sqrt ((q.x - p.x) ^ 2 + (q.y - p.y) ^ 2)) :=
    le_of_not_lt h
  have hs : (40 : ℝ) ≤ Real.sqrt ((q.x - p.x) ^ 2 + (q.y - p.y) ^ 2) := by
    rcases le_max_iff.mp h40 with h1 | h2
    · norm_num at h1
    · exact h2
  by_contra hle
  push_neg at hle
  have : Real.sqrt ((q.x - p.x) ^ 2 + (q.y - p.y) ^ 2) = 0 := by
    rcases lt_or_eq_of_le hle with hlt | heq
    · exact Real.sqrt_eq_zero_of_nonpos (le_of_lt hlt)
    · rw [heq, Real.sqrt_zero]
  rw [this] at hs
  norm_num at hs

/-! Further helper lemmas for the boundary rebound cases and the trace
recency invariant. -/

lemma cb_y_neg {b : Body} (hy : b.y < 0) :
    b.check_boundaries.y = 0 ∧
    b.check_boundaries.vy = b.vy * -b.rebound_factor := by
  unfold Body.check_boundaries
  rw [boundY_of_neg hy, boundX_y, boundX_vy]
  exact ⟨rfl, rfl⟩

lemma cb_y_hi {b : Body} (hh : 0 ≤ b.screen_height) (hy : b.y > b.screen_height) :
    b.check_boundaries.y = b.screen_height ∧
    b.check_boundaries.vy = b.vy * -b.rebound_factor := by
  unfold Body.check_boundaries
  rw [boundY_of_hi (by linarith) hy, boundX_y, boundX_vy]
  exact ⟨rfl, rfl⟩

lemma cb_x_neg {b : Body} (hx : b.x < 0) :
    b.check_boundaries.x = 0 ∧
    b.check_boundaries.vx = b.vx * -b.rebound_factor := by
  unfold Body.check_boundaries
  have hx1 : b.boundY.x < 0 := by rw [boundY_x]; exact hx
  rw [boundX_of_neg hx1]
  constructor
  · rfl
  · show b.boundY.vx * -b.boundY.rebound_factor = b.vx * -b.rebound_factor
    rw [boundY_vx, boundY_rebound]

lemma cb_x_hi {b : Body} (hw : 0 ≤ b.screen_width) (hx : b.x > b.screen_width) :
    b.check_boundaries.x = b.screen_width ∧
    b.check_boundaries.vx = b.vx * -b.rebound_factor := by
  unfold Body.check_boundaries
  have hx0 : ¬ b.boundY.x < 0 := by rw [boundY_x]; linarith
  have hx1 : b.boundY.x > b.boundY.screen_width := by
    rw [boundY_x, boundY_screen_width]; exact hx
  rw [boundX_of_hi hx0 hx1]
  constructor
  · show b.boundY.screen_width = b.screen_width
    rw [boundY_screen_width]
  · show b.boundY.vx * -b.boundY.rebound_factor = b.vx * -b.rebound_factor
    rw [boundY_vx, boundY_rebound]

lemma update_trace_getLast (c : Body) :
    c.update_trace.trace ≠ [] ∧
    c.update_trace.trace.getLast? = some (c.x, c.y) := by
  unfold Body.update_trace
  split_ifs with hl
  · have h99 : c.trace.length = 99 := by
      simp only [List.length_append, List.length_singleton] at hl
      omega
    obtain ⟨hd, t2, ht⟩ : ∃ hd t2, c.trace = hd :: t2 := by
      cases htr : c.trace with
      | nil => rw [htr] at h99; simp at h99
      | cons hd t2 => exact ⟨hd, t2, rfl⟩
    simp only [ht, List.cons_append, List.tail_cons]
    exact ⟨by simp, List.getLast?_concat t2⟩
  · exact ⟨by simp, List.getLast?_concat c.trace⟩

/-! The claim theorems. -/

/-- Claim C4: whenever the floored distance of two bodies is below 40, the
pairwise force is exactly (0, 0) on both axes, for every gravitational
constant. -/
theorem C4_cutoff_zero (p1 p2 : Body) (g : ℝ) (h : distance p1 p2 < 40) :
    calculate_gravitational_force p1 p2 g = (0, 0) := by
  unfold calculate_gravitational_force
  rw [if_pos h]

/-- Witness for C4: two coincident bodies have floored distance 1 < 40 and
exert zero force on each other. -/
theorem C4_cutoff_zero_witness :
    distance body0 body0 < 40 ∧
    calculate_gravitational_force body0 body0 (9.8 : ℝ) = (0, 0) := by
  have hs : (body0.x - body0.x) ^ 2 + (body0.y - body0.y) ^ 2 = 0 := by ring
  have h : distance body0 body0 < 40 := by
    unfold distance
    rw [hs, Real.sqrt_zero, max_eq_left (by norm_num : (0 : ℝ) ≤ 1)]
    norm_num
  exact ⟨h, C4_cutoff_zero body0 body0 9.8 h⟩

/-- Claim C8: the pairwise force computation is total and never divides by
zero — the computed distance is always at least 1, hence nonzero, and so
is the squared distance the magnitude is divided by. -/
theorem C8_distance_floor (p1 p2 : Body) :
    1 ≤ distance p1 p2 ∧ distance p1 p2 ≠ 0 ∧ distance p1 p2 ^ 2 ≠ 0 := by
  have h1 : (1 : ℝ) ≤ distance p1 p2 := distance_ge_one p1 p2
  have h0 : distance p1 p2 ≠ 0 := by
    intro h
    rw [h] at h1
    norm_num at h1
  exact ⟨h1, h0, pow_ne_zero 2 h0⟩

/-- Claim C3: under exact real arithmetic, the pairwise force is
antisymmetric — swapping the two bodies negates both components, in the
cutoff branch and in the magnitude-and-angle branch alike. -/
theorem C3_newton_third_law (a b : Body) (g : ℝ) :
    calculate_gravitational_force a b g =
      (-(calculate_gravitational_force b a g).1,
       -(calculate_gravitational_force b a g).2) := by
  by_cases h : distance a b < 40
  · have h2 : distance b a < 40 := by rw [distance_comm b a]; exact h
    unfold calculate_gravitational_force
    rw [if_pos h, if_pos h2]
    norm_num
  · have h2 : ¬ distance b a < 40 := by rw [distance_comm b a]; exact h
    have hpos : 0 < (b.x - a.x) ^ 2 + (b.y - a.y) ^ 2 := sq_sum_pos_of_cutoff h
    have hpos2 : 0 < (a.x - b.x) ^ 2 + (a.y - b.y) ^ 2 := by
      have hr : (a.x - b.x) ^ 2 + (a.y - b.y) ^ 2 =
          (b.x - a.x) ^ 2 + (b.y - a.y) ^ 2 := by ring
      rw [hr]; exact hpos
    unfold calculate_gravitational_force
    rw [if_neg h, if_neg h2]
    rw [cos_atan2 _ _ (ne_of_gt hpos), sin_atan2,
      cos_atan2 _ _ (ne_of_gt hpos2), sin_atan2]
    rw [distance_comm b a]
    have hsq : (a.x - b.x) ^ 2 + (a.y - b.y) ^ 2 =
        (b.x - a.x) ^ 2 + (b.y - a.y) ^ 2 := by ring
    rw [hsq, Prod.mk.injEq]
    constructor <;> ring

/-- Claim C2: the net force the code accumulates by tuple concatenation
and `add_tuples` equals the component-wise sum of the pairwise forces over
exactly the bodies that are not color-equal to the given body, and that
pair is what `calculate_grav_force` passes to the integration step. -/
theorem C2_net_force_refinement (b : Body) (bodies : List Body) (g : ℝ) :
    add_tuples (forceList b bodies g) = net_force b bodies g ∧
    b.calculate_grav_force bodies g =
      b.update (net_force b bodies g).1 (net_force b bodies g).2 := by
  have h1 : add_tuples (forceList b bodies g) = net_force b bodies g := by
    unfold forceList
    rw [forceList_sum b g bodies [0, 0] (by norm_num), add_tuples_pair_zero,
      zero_add, net_force_sum]
  refine ⟨h1, ?_⟩
  unfold Body.calculate_grav_force
  rw [h1]

/-- Claim C5: the integration step is semi-implicit Euler with unit time
step — velocity first, position with the new velocity — followed
unconditionally by boundary enforcement and trace recording; it is a total
function. -/
theorem C5_semi_implicit_euler (b : Body) (fx fy : ℝ) (hm : 0 < b.mass) :
    b.update fx fy =
      Body.update_trace (Body.check_boundaries (integrateSpec b fx fy)) := by
  unfold Body.update integrateSpec
  norm_num

/-- Witness for C5 at a body of mass 10 under force (1, 2). -/
theorem C5_semi_implicit_euler_witness :
    (0 : ℝ) < body0.mass ∧
    body0.update 1 2 =
      Body.update_trace (Body.check_boundaries (integrateSpec body0 1 2)) := by
  have h : (0 : ℝ) < body0.mass := by norm_num [body0]
  exact ⟨h, C5_semi_implicit_euler body0 1 2 h⟩

/-- Claim C6: boundary enforcement clamps a body below the floor to y = 0
with vy scaled by minus the rebound factor (in particular vy = -5 with
rebound factor 0.5 becomes exactly +2.5), the symmetric rules hold for the
other three edges, and a corner hit reflects both axes in the same call. -/
theorem C6_boundary_rebound (b : Body) (hw : 0 ≤ b.screen_width)
    (hh : 0 ≤ b.screen_height) :
    (b.y < 0 ∧ b.vy = -5 ∧ b.rebound_factor = 0.5 →
      b.check_boundaries.y = 0 ∧ b.check_boundaries.vy = 2.5) ∧
    (b.y < 0 →
      b.check_boundaries.y = 0 ∧
      b.check_boundaries.vy = b.vy * -b.rebound_factor) ∧
    (b.y > b.screen_height →
      b.check_boundaries.y = b.screen_height ∧
      b.check_boundaries.vy = b.vy * -b.rebound_factor) ∧
    (b.x < 0 →
      b.check_boundaries.x = 0 ∧
      b.check_boundaries.vx = b.vx * -b.rebound_factor) ∧
    (b.x > b.screen_width →
      b.check_boundaries.x = b.screen_width ∧
      b.check_boundaries.vx = b.vx * -b.rebound_factor) ∧
    (b.y < 0 ∧ b.x < 0 →
      b.check_boundaries.y = 0 ∧ b.check_boundaries.x = 0 ∧
      b.check_boundaries.vy = b.vy * -b.rebound_factor ∧
      b.check_boundaries.vx = b.vx * -b.rebound_factor) := by
  refine ⟨?_, fun hy => cb_y_neg hy, fun hy => cb_y_hi hh hy,
    fun hx => cb_x_neg hx, fun hx => cb_x_hi hw hx, ?_⟩
  · rintro ⟨hy, hvy, hrf⟩
    obtain ⟨h1, h2⟩ := cb_y_neg hy
    refine ⟨h1, ?_⟩
    rw [h2, hvy, hrf]
    norm_num
  · rintro ⟨hy, hx⟩
    obtain ⟨h1, h2⟩ := cb_y_neg hy
    obtain ⟨h3, h4⟩ := cb_x_neg hx
    exact ⟨h1, h3, h2, h4⟩

/-- Witness for C6: a concrete body past the floor and the left edge with
vy = -5 and rebound factor 0.5 ends clamped to the corner with vy exactly
+2.5. -/
theorem C6_boundary_rebound_witness :
    body6.check_boundaries.y = 0 ∧ body6.check_boundaries.vy = 2.5 ∧
    body6.check_boundaries.x = 0 := by
  have h := C6_boundary_rebound body6 (by norm_num [body6]) (by norm_num [body6])
  obtain ⟨h1, _, _, h4, _, _⟩ := h
  have hy := h1 ⟨by norm_num [body6], by norm_num [body6], by norm_num [body6]⟩
  have hx := h4 (by norm_num [body6])
  exact ⟨hy.1, hy.2, hx.1⟩

/-- Claim C7: for nonnegative screen bounds, every update leaves the
position inside the rectangle [0, screen_width] x [0, screen_height],
whatever the incoming position, velocity and force. -/
theorem C7_containment (b : Body) (fx fy : ℝ) (hw : 0 ≤ b.screen_width)
    (hh : 0 ≤ b.screen_height) :
    0 ≤ (b.update fx fy).x ∧ (b.update fx fy).x ≤ b.screen_width ∧
    0 ≤ (b.update fx fy).y ∧ (b.update fx fy).y ≤ b.screen_height := by
  unfold Body.update
  rw [update_trace_x, update_trace_y]
  have hmem := check_boundaries_mem
    { b with
      vx := b.vx + fx / b.mass
      vy := b.vy + fy / b.mass
      x := b.x + (b.vx + fx / b.mass)
      y := b.y + (b.vy + fy / b.mass) } hw hh
  exact ⟨hmem.1.1, hmem.1.2, hmem.2.1, hmem.2.2⟩

/-- Witness for C7 at a concrete body on an 800 by 600 screen. -/
theorem C7_containment_witness :
    0 ≤ (body0.update 3 4).x ∧ (body0.update 3 4).x ≤ body0.screen_width ∧
    0 ≤ (body0.update 3 4).y ∧ (body0.update 3 4).y ≤ body0.screen_height :=
  C7_containment body0 3 4 (by norm_num [body0]) (by norm_num [body0])

/-- Claim C10: after every update the trace is non-empty and its most
recent entry is exactly the post-clamp position of the body. -/
theorem C10_trace_last (b : Body) (fx fy : ℝ) :
    (b.update fx fy).trace ≠ [] ∧
    (b.update fx fy).trace.getLast? =
      some ((b.update fx fy).x, (b.update fx fy).y) := by
  unfold Body.update
  rw [update_trace_x, update_trace_y]
  exact update_trace_getLast _

set_option maxRecDepth 4000 in
/-- Claim C1: evaluation of the trace-recording step at the failing input.
After 150 recorded positions starting from a fresh trace the code leaves
exactly 99 entries — not the 100 the claim and the docstring of
`update_trace` promise — and those entries are the 99 most recent
positions in chronological order (the suffix of the input list). -/
theorem C1_trace_after_150 :
    (recordRun body0 (List.replicate 150 ((0 : ℝ), (0 : ℝ)))).trace.length = 99 ∧
    (recordRun body0 (List.replicate 150 ((0 : ℝ), (0 : ℝ)))).trace =
      (List.replicate 150 ((0 : ℝ), (0 : ℝ))).drop 51 := by
  have h := recordRun_trace (List.replicate 150 ((0 : ℝ), (0 : ℝ))) body0
    (by simp [body0])
  have hb : body0.trace = [] := rfl
  rw [hb] at h
  simp only [List.nil_append, List.length_nil, List.length_replicate] at h
  have h51 : 0 + 150 - 99 = 51 := by norm_num
  rw [h51] at h
  refine ⟨?_, h⟩
  rw [h, List.length_drop, List.length_replicate]

/-- Claim C9: evaluation of the click handler at the failing input.  With
10 bodies present and a configured maximum of 11, the count is below the
maximum, yet the handler raises an uncaught IndexError (the palette lookup
`COLORS[10 - 3]` is out of range for the 7-color palette) instead of
appending the new body; at the maximum itself the collection is left
unchanged and the warning is emitted as claimed. -/
theorem C9_palette_overflow :
    (List.replicate 10 body0).length < 11 ∧
    handle_click (List.replicate 10 body0) 11 (0, 0) 10 0.5 800 600 = none ∧
    handle_click (List.replicate 11 body0) 11 (0, 0) 10 0.5 800 600 =
      some (List.replicate 11 body0, true) := by
  refine ⟨by simp, ?_, ?_⟩
  · unfold handle_click
    rw [if_pos (by simp : (List.replicate 10 body0).length < 11)]
    have h7 : ((List.replicate 10 body0).length : ℤ) - 3 = 7 := by
      simp
    rw [h7]
    have hnone : pyIndex COLORS 7 = none := by decide
    rw [hnone]
    rfl
  · unfold handle_click
    rw [if_neg (by simp : ¬ (List.replicate 11 body0).length < 11)]
